import Mathlib

/-!
Verification of the car-dealership back-office core: the status state
machine (`changeCarStatus`, `archiveCarUnit`), the transaction ledger
reconciler (`createTransaction`, `updateTransaction`, `deleteTransaction`
and `recalculateSoldPrice`), partner soft-delete (`deletePartner`) and the
financial summary calculator (`getFinancialSummaryByCarId`).

The embedding mirrors the TypeScript handlers in
`src/server/src/handlers/*` and the transaction handlers.  The database is
modelled as explicit lists of rows; drizzle `select ... where eq(id)` is
`List.find?`, `update ... set ... where eq(id)` is a `List.map` guarded on
the id, `delete ... where eq(id)` is `List.filter`.  Monetary values
(stored as string-backed numerics and summed via `parseFloat`) are
modelled as `Rat`.  Timestamps (`new Date()`) are modelled as a `Nat`
passed in explicitly as `now`.  Audit-log writing is an external
append-only sink with no value consumed by the core, so it is not
modelled.  Thrown validation errors are modelled as `Except.error`; since
every handler throws before any write (all-or-nothing transactional
boundary), an error leaves the store unchanged by construction.

JavaScript truthiness checks in the source are modelled faithfully:
`if (input.notes)` is false for the empty string, `input.car_id || t.car_id`
falls back when `car_id` is `0`, and a non-null string-backed numeric
(e.g. `"0.00"`) is truthy.
-/

namespace Dealership

inductive UnitStatus where
  | draft | bought | recond | ready | listed | sold | archived
deriving DecidableEq, Repr

inductive Transmission where
  | manual | automatic | cvt
deriving DecidableEq, Repr

inductive PartnerType where
  | broker | workshop | salon | transport | other
deriving DecidableEq, Repr

inductive TransactionType where
  | acquisition | broker_fee | workshop | detailing | transport
  | admin | tax | other_expense | sale_income | other_income
deriving DecidableEq, Repr

/-- A car-unit row, after `carUnitSchema` / `carUnitsTable`.  `sold_price`
is the nullable string-backed numeric column, modelled as `Option Rat`. -/
structure CarUnit where
  id : Nat
  brand : String
  model : String
  year : Nat
  transmission : Transmission
  odometer : Nat
  color : String
  vin : Option String
  stock_code : String
  location : Option String
  notes : Option String
  primary_photo_url : Option String
  gallery_urls : Option (List String)
  documents : Option (List String)
  status : UnitStatus
  sold_price : Option Rat
  created_at : Nat
  updated_at : Nat
deriving DecidableEq, Repr

/-- A partner row, after `partnerSchema` / `partnersTable`. -/
structure Partner where
  id : Nat
  name : String
  ptype : PartnerType
  contact_info : Option String
  is_active : Bool
  created_at : Nat
  updated_at : Nat
deriving DecidableEq, Repr

/-- A transaction row, after `transactionSchema` / `transactionsTable`. -/
structure Transaction where
  id : Nat
  car_id : Nat
  partner_id : Option Nat
  ttype : TransactionType
  amount : Rat
  percentage : Option Rat
  description : Option String
  date : Nat
  created_at : Nat
  updated_at : Nat
deriving DecidableEq, Repr

/-- The ledger store: the three tables the core reads and writes. -/
structure DB where
  cars : List CarUnit
  partners : List Partner
  transactions : List Transaction
deriving DecidableEq, Repr

/-- `db.select().from(carUnitsTable).where(eq(carUnitsTable.id, id))`,
taking the first returned row. -/
def findCar (cars : List CarUnit) (cid : Nat) : Option CarUnit :=
  cars.find? (fun c => c.id = cid)

def findPartner (ps : List Partner) (pid : Nat) : Option Partner :=
  ps.find? (fun p => p.id = pid)

def findTransaction (ts : List Transaction) (tid : Nat) : Option Transaction :=
  ts.find? (fun t => t.id = tid)

/-- `db.update(carUnitsTable).set(...).where(eq(carUnitsTable.id, cid))`. -/
def updateCarRows (cars : List CarUnit) (cid : Nat) (f : CarUnit → CarUnit) :
    List CarUnit :=
  cars.map (fun c => if c.id = cid then f c else c)

/-- Typed stand-ins for the `throw new Error(...)` sites of the handlers,
one constructor per distinct message shape. -/
inductive DealerError where
  | carNotFound (id : Nat)
  | partnerNotFound (id : Nat)
  | transactionNotFound (id : Nat)
  | alreadyInStatus (s : UnitStatus)
  | invalidTransition (src dst : UnitStatus)
  | invalidStatus (s : UnitStatus)
  | partnerAlreadyInactive (id : Nat)
  | hasDependents (id : Nat) (count : Nat)
deriving DecidableEq, Repr

/-- `ALLOWED_TRANSITIONS` from `change_car_status.ts`. -/
def ALLOWED_TRANSITIONS : UnitStatus → List UnitStatus
  | .draft => [.bought, .archived]
  | .bought => [.recond, .ready, .archived]
  | .recond => [.ready, .listed, .archived]
  | .ready => [.listed, .sold, .archived]
  | .listed => [.sold, .recond, .archived]
  | .sold => [.archived]
  | .archived => []

/-- `ChangeStatusInput` (`changeStatusInputSchema`): `notes` is
`z.string().optional()`, so `none` models an absent field. -/
structure ChangeStatusInput where
  car_id : Nat
  new_status : UnitStatus
  notes : Option String
deriving DecidableEq, Repr

/-- The row update performed by `changeCarStatus` on success:
`status`, `updated_at`, and — only under `if (input.notes)`, i.e. when a
non-empty string was supplied — `notes`. -/
def changeStatusRowUpdate (input : ChangeStatusInput) (now : Nat)
    (c : CarUnit) : CarUnit :=
  { c with
    status := input.new_status
    updated_at := now
    notes :=
      match input.notes with
      | some s => if s = "" then c.notes else some s
      | none => c.notes }

/-- `changeCarStatus` from `change_car_status.ts`: look the car up, reject
a self-transition (`AlreadyInStatus`), reject a pair outside
`ALLOWED_TRANSITIONS` (`InvalidTransition`), otherwise write the row
update and return the updated row. -/
def changeCarStatus (db : DB) (now : Nat) (input : ChangeStatusInput) :
    Except DealerError (DB × CarUnit) :=
  match findCar db.cars input.car_id with
  | none => .error (.carNotFound input.car_id)
  | some currentCar =>
    if currentCar.status = input.new_status then
      .error (.alreadyInStatus input.new_status)
    else if input.new_status ∉ ALLOWED_TRANSITIONS currentCar.status then
      .error (.invalidTransition currentCar.status input.new_status)
    else
      .ok
        ({ db with
            cars := updateCarRows db.cars input.car_id
              (changeStatusRowUpdate input now) },
         changeStatusRowUpdate input now currentCar)

/-- `archiveCarUnit` from `archive_car_unit.ts`: only a car whose status
is exactly `sold` may be archived; any other status throws before any
write. -/
def archiveCarUnit (db : DB) (now : Nat) (carId : Nat) :
    Except DealerError (DB × CarUnit) :=
  match findCar db.cars carId with
  | none => .error (.carNotFound carId)
  | some existingCar =>
    if existingCar.status ≠ .sold then
      .error (.invalidStatus existingCar.status)
    else
      .ok
        ({ db with
            cars := updateCarRows db.cars carId
              (fun c => { c with status := .archived, updated_at := now }) },
         { existingCar with status := .archived, updated_at := now })

/-- `CreateTransactionInput` (`createTransactionInputSchema`).  `null` and
an absent optional field are treated identically by `createTransaction`'s
checks, so both are `none`. -/
structure CreateTransactionInput where
  car_id : Nat
  partner_id : Option Nat
  ttype : TransactionType
  amount : Rat
  percentage : Option Rat
  description : Option String
  date : Option Nat
deriving DecidableEq, Repr

/-- The amount stored by `createTransaction`: for a `broker_fee` with a
supplied `percentage` the handler re-reads the car's `sold_price` and, when
that column is non-null (any non-null string-backed numeric is truthy),
overrides the caller's amount with `soldPrice * percentage / 100`. -/
def finalAmountOf (input : CreateTransactionInput) (car : CarUnit) : Rat :=
  match input.ttype, input.percentage, car.sold_price with
  | .broker_fee, some p, some soldPrice => soldPrice * p / 100
  | _, _, _ => input.amount

/-- The transaction row inserted by `createTransaction`.  `input.partner_id
|| null` maps `0` to null; `input.description || null` maps the empty
string to null; `input.date || new Date()` defaults an absent date to
`now`. -/
def insertedTransaction (input : CreateTransactionInput) (now nextId : Nat)
    (car : CarUnit) : Transaction :=
  { id := nextId
    car_id := input.car_id
    partner_id :=
      match input.partner_id with
      | some p => if p = 0 then none else some p
      | none => none
    ttype := input.ttype
    amount := finalAmountOf input car
    percentage := input.percentage
    description :=
      match input.description with
      | some d => if d = "" then none else some d
      | none => none
    date := input.date.getD now
    created_at := now
    updated_at := now }

/-- The write phase of `createTransaction`, after validation: insert the
row, and — for a `sale_income` — directly assign the owning car's
`sold_price` to the final amount (not a sum) and bump `updated_at`. -/
def createTransactionWrite (db : DB) (now nextId : Nat)
    (input : CreateTransactionInput) (car : CarUnit) : DB × Transaction :=
  let txn := insertedTransaction input now nextId car
  let db1 : DB := { db with transactions := db.transactions ++ [txn] }
  let db2 : DB :=
    if input.ttype = .sale_income then
      { db1 with
          cars := updateCarRows db1.cars input.car_id
            (fun c =>
              { c with
                  sold_price := some (finalAmountOf input car)
                  updated_at := now }) }
    else db1
  (db2, txn)

/-- `createTransaction` from the transaction handler: validate the car and
(when supplied) the partner, derive the stored amount, then perform the
writes of `createTransactionWrite`. -/
def createTransaction (db : DB) (now nextId : Nat)
    (input : CreateTransactionInput) :
    Except DealerError (DB × Transaction) :=
  match findCar db.cars input.car_id with
  | none => .error (.carNotFound input.car_id)
  | some car =>
    match input.partner_id with
    | some pid =>
      match findPartner db.partners pid with
      | none => .error (.partnerNotFound pid)
      | some _ => .ok (createTransactionWrite db now nextId input car)
    | none => .ok (createTransactionWrite db now nextId input car)

/-- `UpdateTransactionInput` (`updateTransactionInputSchema`): partial
update.  Fields that can be set to null (`partner_id`, `percentage`,
`description`) distinguish "absent" (outer `none`) from "explicit null"
(`some none`); `car_id`, `ttype`, `amount`, `date` cannot be null. -/
structure UpdateTransactionInput where
  id : Nat
  car_id : Option Nat
  partner_id : Option (Option Nat)
  ttype : Option TransactionType
  amount : Option Rat
  percentage : Option (Option Rat)
  description : Option (Option String)
  date : Option Nat
deriving DecidableEq, Repr

/-- The `updateData` applied by `updateTransaction`: every field present in
the input (`!== undefined`) is written, `updated_at` is always refreshed. -/
def applyTransactionUpdate (input : UpdateTransactionInput) (now : Nat)
    (t : Transaction) : Transaction :=
  { t with
    car_id := input.car_id.getD t.car_id
    partner_id := input.partner_id.getD t.partner_id
    ttype := input.ttype.getD t.ttype
    amount := input.amount.getD t.amount
    percentage := input.percentage.getD t.percentage
    description := input.description.getD t.description
    date := input.date.getD t.date
    updated_at := now }

/-- The total of the `sale_income` transactions of a car, computed as the
handlers do: filter by `car_id` and type, then reduce `parseFloat` sums
from `0`. -/
def saleIncomeTotal (ts : List Transaction) (carId : Nat) : Rat :=
  (ts.filter (fun t => t.car_id = carId ∧ t.ttype = .sale_income)).foldl
    (fun s t => s + t.amount) 0

/-- `recalculateSoldPrice` from the update-transaction handler.  Its local
`soldPrice` is `total` when positive and null otherwise, but the update is
written as `sold_price: soldPrice?.toString()`: when `soldPrice` is null
the optional chaining yields `undefined`, and drizzle-orm's `.set(...)`
silently drops `undefined` entries, so in that case the `sold_price`
column is left at its previous value; only `updated_at` is written. -/
def recalculateSoldPrice (db : DB) (now : Nat) (carId : Nat) : DB :=
  let totalSaleIncome := saleIncomeTotal db.transactions carId
  { db with
      cars := updateCarRows db.cars carId
        (fun c =>
          { c with
              sold_price :=
                if totalSaleIncome > 0 then some totalSaleIncome
                else c.sold_price
              updated_at := now }) }

/-- The write phase of `updateTransaction`, after validation: apply the
partial update to the row, then — when the old type or the effective new
type is `sale_income` — recalculate `sold_price` for the effective car
(`input.car_id || currentTransaction.car_id`, so `some 0` falls back to
the old car id by JS truthiness). -/
def updateTransactionWrite (db : DB) (now : Nat)
    (input : UpdateTransactionInput) (currentTransaction : Transaction) :
    DB × Transaction :=
  let db1 : DB :=
    { db with
        transactions := db.transactions.map
          (fun u => if u.id = input.id then applyTransactionUpdate input now u
                    else u) }
  let oldType := currentTransaction.ttype
  let newType := input.ttype.getD oldType
  let carId :=
    match input.car_id with
    | some c => if c = 0 then currentTransaction.car_id else c
    | none => currentTransaction.car_id
  let db2 : DB :=
    if oldType = .sale_income ∨ newType = .sale_income then
      recalculateSoldPrice db1 now carId
    else db1
  (db2, applyTransactionUpdate input now currentTransaction)

/-- `updateTransaction` from the update-transaction handler: the row must
exist; a supplied, non-zero `car_id` different from the current one must
reference an existing car; then the writes of `updateTransactionWrite`. -/
def updateTransaction (db : DB) (now : Nat)
    (input : UpdateTransactionInput) :
    Except DealerError (DB × Transaction) :=
  match findTransaction db.transactions input.id with
  | none => .error (.transactionNotFound input.id)
  | some currentTransaction =>
    match input.car_id with
    | some c =>
      if c ≠ 0 ∧ c ≠ currentTransaction.car_id then
        match findCar db.cars c with
        | none => .error (.carNotFound c)
        | some _ => .ok (updateTransactionWrite db now input currentTransaction)
      else .ok (updateTransactionWrite db now input currentTransaction)
    | none => .ok (updateTransactionWrite db now input currentTransaction)

/-- `deleteTransaction` from the delete-transaction handler: the row must
exist; it is removed; when it was a `sale_income`, the owning car's
`sold_price` is recomputed from the remaining `sale_income` rows —
explicitly null when that total is not positive. -/
def deleteTransaction (db : DB) (now : Nat) (transactionId : Nat) :
    Except DealerError DB :=
  match findTransaction db.transactions transactionId with
  | none => .error (.transactionNotFound transactionId)
  | some transaction =>
    let carId := transaction.car_id
    let remaining := db.transactions.filter (fun u => ¬u.id = transactionId)
    let db1 : DB := { db with transactions := remaining }
    if transaction.ttype = .sale_income then
      let newSoldPrice := saleIncomeTotal remaining carId
      .ok
        { db1 with
            cars := updateCarRows db1.cars carId
              (fun c =>
                { c with
                    sold_price :=
                      if newSoldPrice > 0 then some newSoldPrice else none
                    updated_at := now }) }
    else .ok db1

/-- `deletePartner` from `delete_partner.ts`: the partner must exist and
still be active (checked first); a partner referenced by any transaction
cannot be soft-deleted; otherwise `is_active` is set to false. -/
def deletePartner (db : DB) (now : Nat) (partnerId : Nat) :
    Except DealerError DB :=
  match findPartner db.partners partnerId with
  | none => .error (.partnerNotFound partnerId)
  | some partner =>
    if ¬partner.is_active then .error (.partnerAlreadyInactive partnerId)
    else
      let transactionCount :=
        (db.transactions.filter (fun t => t.partner_id = some partnerId)).length
      if transactionCount > 0 then
        .error (.hasDependents partnerId transactionCount)
      else
        .ok
          { db with
              partners := db.partners.map
                (fun q =>
                  if q.id = partnerId then
                    { q with is_active := false, updated_at := now }
                  else q) }

/-- `expenseTypes` from `get_financial_summary.ts`. -/
def expenseTypes : List TransactionType :=
  [.broker_fee, .workshop, .detailing, .transport, .admin, .tax,
   .other_expense]

/-- `incomeTypes` from `get_financial_summary.ts`. -/
def incomeTypes : List TransactionType :=
  [.sale_income, .other_income]

/-- The four running totals of `getFinancialSummaryByCarId`. -/
structure SummaryTotals where
  total_acquisition : Rat
  total_expenses : Rat
  total_incomes : Rat
  sale_income_total : Rat
deriving DecidableEq, Repr

/-- One step of the `transactions.forEach` accumulation in
`getFinancialSummaryByCarId`. -/
def summaryStep (acc : SummaryTotals) (t : Transaction) : SummaryTotals :=
  if t.ttype = .acquisition then
    { acc with total_acquisition := acc.total_acquisition + t.amount }
  else if t.ttype ∈ expenseTypes then
    { acc with total_expenses := acc.total_expenses + t.amount }
  else if t.ttype ∈ incomeTypes then
    { acc with
        total_incomes := acc.total_incomes + t.amount
        sale_income_total :=
          if t.ttype = .sale_income then acc.sale_income_total + t.amount
          else acc.sale_income_total }
  else acc

/-- `FinancialSummary` (`financialSummarySchema`). -/
structure FinancialSummary where
  car_id : Nat
  total_acquisition : Rat
  total_expenses : Rat
  total_incomes : Rat
  profit : Rat
  sold_price : Option Rat
deriving DecidableEq, Repr

/-- `getFinancialSummaryByCarId` from `get_financial_summary.ts`: bucket
the car's transactions, prefer the stored `sold_price` (a non-null
string-backed numeric is truthy) and otherwise fall back to a positive
`sale_income` total, and report
`profit = total_incomes - total_acquisition - total_expenses`. -/
def getFinancialSummaryByCarId (db : DB) (carId : Nat) :
    Except DealerError FinancialSummary :=
  match findCar db.cars carId with
  | none => .error (.carNotFound carId)
  | some carUnit =>
    let transactions := db.transactions.filter (fun t => t.car_id = carId)
    let acc := transactions.foldl summaryStep ⟨0, 0, 0, 0⟩
    let sold_price :=
      match carUnit.sold_price with
      | some sp => some sp
      | none =>
        if acc.sale_income_total > 0 then some acc.sale_income_total else none
    .ok
      { car_id := carId
        total_acquisition := acc.total_acquisition
        total_expenses := acc.total_expenses
        total_incomes := acc.total_incomes
        profit := acc.total_incomes - acc.total_acquisition - acc.total_expenses
        sold_price := sold_price }

/-! ## Specification-side definitions and sample data -/

/-- Sum of the `amount` column of a list of transactions (the
specification-side formulation of the reductions in the handlers). -/
def sumAmounts (l : List Transaction) : Rat :=
  (l.map (fun t => t.amount)).sum

/-- The transition table exactly as the specification enumerates it
(`draft→{bought,archived}`; `bought→{recond,ready,archived}`;
`recond→{ready,listed,archived}`; `ready→{listed,sold,archived}`;
`listed→{sold,recond,archived}`; `sold→{archived}`; `archived→∅`). -/
def specTransitionTable : List (UnitStatus × UnitStatus) :=
  [(.draft, .bought), (.draft, .archived),
   (.bought, .recond), (.bought, .ready), (.bought, .archived),
   (.recond, .ready), (.recond, .listed), (.recond, .archived),
   (.ready, .listed), (.ready, .sold), (.ready, .archived),
   (.listed, .sold), (.listed, .recond), (.listed, .archived),
   (.sold, .archived)]

/-- `archiveCarUnit` under the all-or-nothing transactional boundary: a
thrown validation error rolls everything back, so the store is the
original one. -/
def archiveRun (db : DB) (now carId : Nat) : DB :=
  match archiveCarUnit db now carId with
  | .ok (db', _) => db'
  | .error _ => db

/-- `deletePartner` under the all-or-nothing transactional boundary. -/
def deletePartnerRun (db : DB) (now partnerId : Nat) : DB :=
  match deletePartner db now partnerId with
  | .ok db' => db'
  | .error _ => db

/-- Sample car-unit builder for concrete test stores. -/
def mkCar (id : Nat) (st : UnitStatus) (sp : Option Rat)
    (notes : Option String) : CarUnit :=
  { id := id, brand := "Toyota", model := "Camry", year := 2020,
    transmission := .automatic, odometer := 50000, color := "Silver",
    vin := none, stock_code := s!"STK{id}", location := none, notes := notes,
    primary_photo_url := none, gallery_urls := none, documents := none,
    status := st, sold_price := sp, created_at := 0, updated_at := 0 }

/-- Sample transaction builder for concrete test stores. -/
def mkTxn (id carId : Nat) (ty : TransactionType) (amt : Rat) :
    Transaction :=
  { id := id, car_id := carId, partner_id := none, ttype := ty,
    amount := amt, percentage := none, description := none,
    date := 0, created_at := 0, updated_at := 0 }

/-- Sample transaction builder carrying a partner reference. -/
def mkTxnWithPartner (id carId pid : Nat) (ty : TransactionType)
    (amt : Rat) : Transaction :=
  { mkTxn id carId ty amt with partner_id := some pid }

/-- Sample partner builder. -/
def mkPartner (id : Nat) (active : Bool) : Partner :=
  { id := id, name := "Broker One", ptype := .broker, contact_info := none,
    is_active := active, created_at := 0, updated_at := 0 }

deriving instance DecidableEq for Except

/-- A three-car test store: a draft car with existing notes, a sold car
with a stored sale price, and a listed car. -/
def carW : CarUnit := mkCar 1 .draft none (some "old")

def carWsold : CarUnit := mkCar 2 .sold (some 25000) none

def carWlisted : CarUnit := mkCar 3 .listed none none

def dbW : DB :=
  { cars := [carW, carWsold, carWlisted], partners := [], transactions := [] }

/-- The car row produced by a successful
`changeCarStatus dbW 5 ⟨1, bought, "hello"⟩`. -/
def rcarW8 : CarUnit :=
  { mkCar 1 .bought none (some "hello") with updated_at := 5 }

/-- The store produced by that same call. -/
def dbW8res : DB :=
  { cars := [rcarW8, carWsold, carWlisted], partners := [],
    transactions := [] }

/-- First sale-income creation on the draft car: amount 100. -/
def inpW2a : CreateTransactionInput :=
  ⟨1, none, .sale_income, 100, none, none, none⟩

/-- Second sale-income creation on the same car: amount 250. -/
def inpW2b : CreateTransactionInput :=
  ⟨1, none, .sale_income, 250, none, none, none⟩

def resW2a : DB × Transaction := createTransactionWrite dbW 3 1 inpW2a carW

/-- The draft car as stored after the first sale-income creation. -/
def carW2mid : CarUnit := { carW with sold_price := some 100, updated_at := 3 }

def resW2b : DB × Transaction :=
  createTransactionWrite resW2a.1 4 2 inpW2b carW2mid

/-- A broker-fee creation with `percentage = 5` and caller amount 999 on
the car whose stored `sold_price` is 25000. -/
def inpW6 : CreateTransactionInput :=
  ⟨2, none, .broker_fee, 999, some 5, none, none⟩

def resW6 : DB × Transaction := createTransactionWrite dbW 7 1 inpW6 carWsold

/-- Store for the summary witness: one sold car with an acquisition, two
expenses and one other income. -/
def dbW7 : DB :=
  { cars := [mkCar 1 .sold (some 25000) none], partners := [],
    transactions :=
      [mkTxn 1 1 .acquisition 20000, mkTxn 2 1 .workshop 1500,
       mkTxn 3 1 .detailing 500, mkTxn 4 1 .other_income 100] }

/-- The summary computed for that store. -/
def sW7 : FinancialSummary :=
  (getFinancialSummaryByCarId dbW7 1).toOption.getD ⟨0, 0, 0, 0, 0, none⟩

/-- Store for the stale-`sold_price` run: the car's stored price is 100
(as left by creating its single sale-income transaction of amount 100). -/
def dbC3 : DB :=
  { cars := [mkCar 1 .sold (some 100) none], partners := [],
    transactions := [mkTxn 1 1 .sale_income 100] }

/-- Retype the only sale-income transaction to `workshop`. -/
def inpC3 : UpdateTransactionInput :=
  ⟨1, none, none, some .workshop, none, none, none, none⟩

/-- Store for the zero-sum deletion: two sale-income transactions of
amounts 100 and 0. -/
def dbC4 : DB :=
  { cars := [mkCar 1 .sold (some 100) none], partners := [],
    transactions := [mkTxn 1 1 .sale_income 100, mkTxn 2 1 .sale_income 0] }

/-- Store for the deletion witness: sale-income transactions of amounts
100 and 50. -/
def dbW4 : DB :=
  { cars := [mkCar 1 .sold (some 150) none], partners := [],
    transactions := [mkTxn 1 1 .sale_income 100, mkTxn 2 1 .sale_income 50] }

/-- The store after deleting transaction 1 from `dbW4`. -/
def dbW4res : DB := (deleteTransaction dbW4 5 1).toOption.getD dbW4

/-- An active partner referenced by one transaction. -/
def dbC9w : DB :=
  { cars := [mkCar 1 .sold (some 100) none], partners := [mkPartner 1 true],
    transactions := [mkTxnWithPartner 1 1 1 .broker_fee 10] }

/-- An inactive partner referenced by one transaction. -/
def dbC9c : DB :=
  { cars := [mkCar 1 .sold (some 100) none], partners := [mkPartner 1 false],
    transactions := [mkTxnWithPartner 1 1 1 .broker_fee 10] }

/-- Two cars; car 1 owns the single sale-income transaction. -/
def dbW10 : DB :=
  { cars := [mkCar 1 .sold (some 100) none, mkCar 2 .listed none none],
    partners := [],
    transactions := [mkTxn 1 1 .sale_income 100] }

/-- Move transaction 1 to car 2. -/
def inpW10 : UpdateTransactionInput :=
  ⟨1, some 2, none, none, none, none, none, none⟩

/-- The result of that move. -/
def resW10 : DB × Transaction :=
  (updateTransaction dbW10 9 inpW10).toOption.getD
    (dbW10, mkTxn 1 1 .sale_income 100)

/-! ## Helper lemmas about the record-store primitives -/

theorem findCar_updateCarRows_self (cars : List CarUnit) (cid : Nat)
    (f : CarUnit → CarUnit) (hf : ∀ c, (f c).id = c.id) :
    findCar (updateCarRows cars cid f) cid = (findCar cars cid).map f := by
  induction cars with
  | nil => rfl
  | cons c cs ih =>
    by_cases h : c.id = cid
    · simp [findCar, updateCarRows, List.find?_cons, h, hf c]
    · simpa [findCar, updateCarRows, List.find?_cons, h] using ih

theorem findCar_updateCarRows_ne (cars : List CarUnit) (c1 c2 : Nat)
    (f : CarUnit → CarUnit) (hf : ∀ c, (f c).id = c.id) (hne : c1 ≠ c2) :
    findCar (updateCarRows cars c2 f) c1 = findCar cars c1 := by
  induction cars with
  | nil => rfl
  | cons c cs ih =>
    unfold findCar updateCarRows at ih ⊢
    simp only [List.map_cons]
    by_cases h : c.id = c2
    · rw [if_pos h]
      rw [List.find?_cons_of_neg, List.find?_cons_of_neg]
      · exact ih
      · simp only [decide_eq_true_eq, h]
        exact fun hc => hne hc.symm
      · simp only [decide_eq_true_eq, hf c, h]
        exact fun hc => hne hc.symm
    · rw [if_neg h]
      by_cases h1 : c.id = c1
      · rw [List.find?_cons_of_pos, List.find?_cons_of_pos] <;>
          simp only [decide_eq_true_eq, h1]
      · rw [List.find?_cons_of_neg, List.find?_cons_of_neg]
        · exact ih
        · simp only [decide_eq_true_eq]
          exact h1
        · simp only [decide_eq_true_eq]
          exact h1

theorem foldl_add_amount (l : List Transaction) (a : Rat) :
    l.foldl (fun s t => s + t.amount) a = a + sumAmounts l := by
  induction l generalizing a with
  | nil => simp [sumAmounts]
  | cons t ts ih =>
    simp only [List.foldl_cons, ih, sumAmounts, List.map_cons, List.sum_cons]
    ring

theorem saleIncomeTotal_eq_sumAmounts (ts : List Transaction) (carId : Nat) :
    saleIncomeTotal ts carId =
      sumAmounts (ts.filter
        (fun t => t.car_id = carId ∧ t.ttype = .sale_income)) := by
  unfold saleIncomeTotal
  rw [foldl_add_amount, zero_add]

/-! ## C1: the status transition table -/

theorem allowed_iff_specEdge (s t : UnitStatus) :
    t ∈ ALLOWED_TRANSITIONS s ↔ (s, t) ∈ specTransitionTable := by
  cases s <;> cases t <;> decide

/-- C1: for every car unit and requested new status, `changeCarStatus`
succeeds if and only if `(currentStatus, newStatus)` is an edge of the
transition table and the new status differs from the current one; a
self-transition fails with `AlreadyInStatus`, and a non-edge with a
different status fails with `InvalidTransition`. -/
theorem changeCarStatus_iff_edge (db : DB) (now : Nat)
    (input : ChangeStatusInput) (car : CarUnit)
    (hfind : findCar db.cars input.car_id = some car) :
    ((∃ r, changeCarStatus db now input = .ok r) ↔
      ((car.status, input.new_status) ∈ specTransitionTable ∧
        input.new_status ≠ car.status))
    ∧ (input.new_status = car.status →
        changeCarStatus db now input =
          .error (.alreadyInStatus input.new_status))
    ∧ (input.new_status ≠ car.status →
        (car.status, input.new_status) ∉ specTransitionTable →
        changeCarStatus db now input =
          .error (.invalidTransition car.status input.new_status)) := by
  unfold changeCarStatus
  rw [hfind]
  refine ⟨⟨?_, ?_⟩, ?_, ?_⟩
  · rintro ⟨r, hr⟩
    by_cases h1 : car.status = input.new_status
    · simp [h1] at hr
    · by_cases h2 : input.new_status ∈ ALLOWED_TRANSITIONS car.status
      · exact ⟨(allowed_iff_specEdge _ _).mp h2, fun he => h1 he.symm⟩
      · simp [h1, h2] at hr
  · rintro ⟨hedge, hne⟩
    have h2 := (allowed_iff_specEdge car.status input.new_status).mpr hedge
    have h1 : ¬car.status = input.new_status := fun he => hne he.symm
    refine ⟨({ db with
        cars := updateCarRows db.cars input.car_id
          (changeStatusRowUpdate input now) },
      changeStatusRowUpdate input now car), ?_⟩
    simp [h1, h2]
  · intro he
    simp [he.symm]
  · intro hne hnedge
    have h1 : ¬car.status = input.new_status := fun he => hne he.symm
    have h2 : input.new_status ∉ ALLOWED_TRANSITIONS car.status :=
      fun h => hnedge ((allowed_iff_specEdge _ _).mp h)
    simp [h1, h2]

/-- Witness for C1 at a concrete store: a draft car asked to move to
`bought`. -/
theorem changeCarStatus_iff_edge_witness :
    findCar dbW.cars 1 = some carW ∧
    (((∃ r, changeCarStatus dbW 5 ⟨1, .bought, none⟩ = .ok r) ↔
        ((carW.status, UnitStatus.bought) ∈ specTransitionTable ∧
          UnitStatus.bought ≠ carW.status))
      ∧ (UnitStatus.bought = carW.status →
          changeCarStatus dbW 5 ⟨1, .bought, none⟩ =
            .error (.alreadyInStatus .bought))
      ∧ (UnitStatus.bought ≠ carW.status →
          (carW.status, UnitStatus.bought) ∉ specTransitionTable →
          changeCarStatus dbW 5 ⟨1, .bought, none⟩ =
            .error (.invalidTransition carW.status .bought))) :=
  ⟨rfl, changeCarStatus_iff_edge dbW 5 ⟨1, .bought, none⟩ carW rfl⟩

/-! ## C5: the dedicated archive operation -/

/-- C5: `archiveCarUnit` succeeds if and only if the car's current status
is exactly `sold`; for every other status it fails with the
`InvalidStatus` error and (the handler throwing before any write) the
store is unchanged. -/
theorem archiveCarUnit_iff_sold (db : DB) (now carId : Nat) (car : CarUnit)
    (hfind : findCar db.cars carId = some car) :
    ((∃ r, archiveCarUnit db now carId = .ok r) ↔ car.status = .sold)
    ∧ (car.status ≠ .sold →
        archiveCarUnit db now carId = .error (.invalidStatus car.status)
        ∧ archiveRun db now carId = db) := by
  by_cases hs : car.status = .sold
  · refine ⟨⟨fun _ => hs, fun _ => ?_⟩, fun hns => absurd hs hns⟩
    refine ⟨({ db with
        cars := updateCarRows db.cars carId
          (fun c => { c with status := .archived, updated_at := now }) },
      { car with status := .archived, updated_at := now }), ?_⟩
    unfold archiveCarUnit
    rw [hfind]
    simp [hs]
  · have herr : archiveCarUnit db now carId =
        .error (.invalidStatus car.status) := by
      unfold archiveCarUnit
      rw [hfind]
      simp [hs]
    refine ⟨⟨?_, fun h => absurd h hs⟩, fun _ => ⟨herr, ?_⟩⟩
    · rintro ⟨r, hr⟩
      rw [herr] at hr
      cases hr
    · unfold archiveRun
      rw [herr]

/-- Witness for C5 at a concrete store: a listed car — a status from
which the general transition table would allow `archived` — cannot be
archived by the dedicated operation. -/
theorem archiveCarUnit_iff_sold_witness :
    findCar dbW.cars 3 = some carWlisted ∧
    (((∃ r, archiveCarUnit dbW 9 3 = .ok r) ↔ carWlisted.status = .sold)
      ∧ (carWlisted.status ≠ .sold →
          archiveCarUnit dbW 9 3 = .error (.invalidStatus carWlisted.status)
          ∧ archiveRun dbW 9 3 = dbW)) :=
  ⟨rfl, archiveCarUnit_iff_sold dbW 9 3 carWlisted rfl⟩

/-! ## C8: effects of a successful status change -/

/-- C8 counterexample: the claim says a supplied notes argument always
overwrites the unit's notes, but `changeCarStatus` guards the write with
JS truthiness (`if (input.notes)`), so supplying the empty string leaves
the previous notes in place: on the draft car with notes `"old"`, the call
succeeds and the resulting notes are still `"old"`, not `""`. -/
theorem changeCarStatus_empty_notes_counterexample :
    (changeCarStatus dbW 5 ⟨1, .bought, some ""⟩).toOption.map
        (fun r => r.2.notes) = some (some "old")
    ∧ (some "old" : Option String) ≠ some "" := by
  exact ⟨rfl, by decide⟩

/-- C8 (amended): on every successful `changeCarStatus` the car's status
is set to the new status and `updated_at` is refreshed; if a *non-empty*
notes string was supplied it overwrites the unit's notes, and otherwise
(absent or empty string) the notes are left unchanged; the stored row
equals the returned one. -/
theorem changeCarStatus_success_effects (db : DB) (now : Nat)
    (input : ChangeStatusInput) (car : CarUnit) (db' : DB) (rcar : CarUnit)
    (hfind : findCar db.cars input.car_id = some car)
    (hok : changeCarStatus db now input = .ok (db', rcar)) :
    rcar.status = input.new_status ∧ rcar.updated_at = now
    ∧ (∀ s, input.notes = some s → s ≠ "" → rcar.notes = some s)
    ∧ ((input.notes = none ∨ input.notes = some "") → rcar.notes = car.notes)
    ∧ findCar db'.cars input.car_id = some rcar := by
  unfold changeCarStatus at hok
  rw [hfind] at hok
  by_cases h1 : car.status = input.new_status
  · simp [h1] at hok
  · by_cases h2 : input.new_status ∈ ALLOWED_TRANSITIONS car.status
    · simp [h1, h2] at hok
      obtain ⟨hdb, hcar⟩ := hok
      refine ⟨?_, ?_, ?_, ?_, ?_⟩
      · rw [← hcar]; rfl
      · rw [← hcar]; rfl
      · intro s hs hne
        rw [← hcar]
        unfold changeStatusRowUpdate
        simp [hs, hne]
      · intro hcases
        rw [← hcar]
        unfold changeStatusRowUpdate
        rcases hcases with h | h <;> simp [h]
      · rw [← hdb]
        have := findCar_updateCarRows_self db.cars input.car_id
          (changeStatusRowUpdate input now) (fun c => rfl)
        simp only [this, hfind, Option.map_some]
        rw [← hcar]
        rfl
    · simp [h1, h2] at hok

/-- Witness for C8 at a concrete store: moving the draft car to `bought`
with notes `"hello"`. -/
theorem changeCarStatus_success_effects_witness :
    findCar dbW.cars 1 = some carW ∧
    changeCarStatus dbW 5 ⟨1, .bought, some "hello"⟩ = .ok (dbW8res, rcarW8) ∧
    (rcarW8.status = UnitStatus.bought ∧ rcarW8.updated_at = 5
      ∧ (∀ s, (some "hello" : Option String) = some s → s ≠ "" →
          rcarW8.notes = some s)
      ∧ (((some "hello" : Option String) = none ∨
          (some "hello" : Option String) = some "") → rcarW8.notes = carW.notes)
      ∧ findCar dbW8res.cars 1 = some rcarW8) :=
  ⟨rfl, rfl,
    changeCarStatus_success_effects dbW 5 ⟨1, .bought, some "hello"⟩ carW
      dbW8res rcarW8 rfl rfl⟩

/-! ## C2: sale-income creation directly assigns `sold_price` -/

/-- C2: for a car with no prior `sale_income` transactions, creating a
`sale_income` transaction with final amount `A` leaves the car's
`sold_price` at `A`, and a subsequent `sale_income` creation with final
amount `B` (no intervening update) leaves it at `B` — a direct overwrite,
not the cumulative `A + B`. -/
theorem createTransaction_saleIncome_overwrites (db db1 db2 : DB)
    (now1 now2 id1 id2 cid : Nat) (A B : Rat) (car : CarUnit)
    (t1 t2 : Transaction)
    (hfind : findCar db.cars cid = some car)
    (hnoprior : ∀ t ∈ db.transactions, t.car_id = cid →
      t.ttype ≠ .sale_income)
    (hok1 : createTransaction db now1 id1
      ⟨cid, none, .sale_income, A, none, none, none⟩ = .ok (db1, t1))
    (hok2 : createTransaction db1 now2 id2
      ⟨cid, none, .sale_income, B, none, none, none⟩ = .ok (db2, t2)) :
    t1.amount = A
    ∧ (findCar db1.cars cid).map (fun c => c.sold_price) = some (some A)
    ∧ t2.amount = B
    ∧ (findCar db2.cars cid).map (fun c => c.sold_price) = some (some B) := by
  have hrun1 : createTransaction db now1 id1
      ⟨cid, none, .sale_income, A, none, none, none⟩ =
      .ok (createTransactionWrite db now1 id1
        ⟨cid, none, .sale_income, A, none, none, none⟩ car) := by
    unfold createTransaction
    rw [hfind]
  rw [hrun1] at hok1
  have hpair1 := Except.ok.inj hok1
  have hdb1 : db1 = (createTransactionWrite db now1 id1
      ⟨cid, none, .sale_income, A, none, none, none⟩ car).1 :=
    (congrArg Prod.fst hpair1).symm
  have ht1 : t1 = (createTransactionWrite db now1 id1
      ⟨cid, none, .sale_income, A, none, none, none⟩ car).2 :=
    (congrArg Prod.snd hpair1).symm
  have hfind1 : findCar db1.cars cid =
      some { car with sold_price := some A, updated_at := now1 } := by
    rw [hdb1]
    show findCar (updateCarRows db.cars cid
      (fun c => { c with sold_price := some A, updated_at := now1 })) cid = _
    rw [findCar_updateCarRows_self db.cars cid
      (fun c => { c with sold_price := some A, updated_at := now1 })
      (fun c => rfl), hfind]
    rfl
  have hrun2 : createTransaction db1 now2 id2
      ⟨cid, none, .sale_income, B, none, none, none⟩ =
      .ok (createTransactionWrite db1 now2 id2
        ⟨cid, none, .sale_income, B, none, none, none⟩
        { car with sold_price := some A, updated_at := now1 }) := by
    unfold createTransaction
    rw [hfind1]
  rw [hrun2] at hok2
  have hpair2 := Except.ok.inj hok2
  have hdb2 : db2 = (createTransactionWrite db1 now2 id2
      ⟨cid, none, .sale_income, B, none, none, none⟩
      { car with sold_price := some A, updated_at := now1 }).1 :=
    (congrArg Prod.fst hpair2).symm
  have ht2 : t2 = (createTransactionWrite db1 now2 id2
      ⟨cid, none, .sale_income, B, none, none, none⟩
      { car with sold_price := some A, updated_at := now1 }).2 :=
    (congrArg Prod.snd hpair2).symm
  refine ⟨by rw [ht1]; rfl, by rw [hfind1]; rfl, by rw [ht2]; rfl, ?_⟩
  rw [hdb2]
  show ((findCar (updateCarRows db1.cars cid
    (fun c => { c with sold_price := some B, updated_at := now2 })) cid).map
      (fun c => c.sold_price)) = some (some B)
  rw [findCar_updateCarRows_self db1.cars cid
    (fun c => { c with sold_price := some B, updated_at := now2 })
    (fun c => rfl), hfind1]
  rfl

/-- Witness for C2: amounts 100 then 250 on the draft car of the sample
store; the stored price ends at 250, not 350. -/
theorem createTransaction_saleIncome_overwrites_witness :
    findCar dbW.cars 1 = some carW ∧
    createTransaction dbW 3 1 inpW2a = .ok (resW2a.1, resW2a.2) ∧
    createTransaction resW2a.1 4 2 inpW2b = .ok (resW2b.1, resW2b.2) ∧
    (resW2a.2.amount = 100
      ∧ (findCar resW2a.1.cars 1).map (fun c => c.sold_price) =
          some (some 100)
      ∧ resW2b.2.amount = 250
      ∧ (findCar resW2b.1.cars 1).map (fun c => c.sold_price) =
          some (some 250)) :=
  ⟨rfl, rfl, rfl,
    createTransaction_saleIncome_overwrites dbW resW2a.1 resW2b.1 3 4 1 2 1
      100 250 carW resW2a.2 resW2b.2 rfl
      (by intro t ht _; simp [dbW] at ht) rfl rfl⟩

/-! ## C6: broker-fee amount derivation -/

/-- C6: `createTransaction` overrides the caller-supplied amount with
`sold_price * percentage / 100` exactly when the type is `broker_fee`,
the percentage is non-null and the car's `sold_price` is non-null; in
every other case the caller-supplied amount is stored as-is. -/
theorem createTransaction_brokerFee_amount (db db' : DB) (now nextId : Nat)
    (input : CreateTransactionInput) (car : CarUnit) (t : Transaction)
    (hfind : findCar db.cars input.car_id = some car)
    (hok : createTransaction db now nextId input = .ok (db', t)) :
    (∀ p sp, input.ttype = .broker_fee → input.percentage = some p →
      car.sold_price = some sp → t.amount = sp * p / 100)
    ∧ ((input.ttype ≠ .broker_fee ∨ input.percentage = none ∨
        car.sold_price = none) → t.amount = input.amount) := by
  have ht : t = insertedTransaction input now nextId car := by
    cases hp : input.partner_id with
    | none =>
      have hrun : createTransaction db now nextId input =
          .ok (createTransactionWrite db now nextId input car) := by
        unfold createTransaction
        rw [hfind, hp]
      rw [hrun] at hok
      exact (congrArg Prod.snd (Except.ok.inj hok)).symm
    | some pid =>
      cases hfp : findPartner db.partners pid with
      | none =>
        have hrun : createTransaction db now nextId input =
            .error (.partnerNotFound pid) := by
          simp only [createTransaction, hfind, hp, hfp]
        rw [hrun] at hok
        cases hok
      | some q =>
        have hrun : createTransaction db now nextId input =
            .ok (createTransactionWrite db now nextId input car) := by
          simp only [createTransaction, hfind, hp, hfp]
        rw [hrun] at hok
        exact (congrArg Prod.snd (Except.ok.inj hok)).symm
  have hamount : t.amount = finalAmountOf input car := by rw [ht]; rfl
  constructor
  · intro p sp h1 h2 h3
    rw [hamount]
    unfold finalAmountOf
    rw [h1, h2, h3]
  · intro h
    rw [hamount]
    unfold finalAmountOf
    rcases hty : input.ttype <;> rcases hpct : input.percentage <;>
      rcases hsp : car.sold_price <;> simp_all

/-- Witness for C6: percentage 5 on the car with stored price 25000
yields a stored amount of 1250, overriding the caller's 999. -/
theorem createTransaction_brokerFee_amount_witness :
    findCar dbW.cars 2 = some carWsold ∧
    createTransaction dbW 7 1 inpW6 = .ok (resW6.1, resW6.2) ∧
    ((∀ p sp, inpW6.ttype = .broker_fee → inpW6.percentage = some p →
        carWsold.sold_price = some sp → resW6.2.amount = sp * p / 100)
      ∧ ((inpW6.ttype ≠ .broker_fee ∨ inpW6.percentage = none ∨
          carWsold.sold_price = none) → resW6.2.amount = inpW6.amount))
    ∧ resW6.2.amount = 1250 :=
  ⟨rfl, rfl,
    createTransaction_brokerFee_amount dbW resW6.1 7 1 inpW6 carWsold
      resW6.2 rfl rfl,
    by rw [show resW6.2.amount = (25000 : ℚ) * 5 / 100 from rfl]; norm_num⟩

/-! ## C7: financial summary partition and profit -/

/-- Characterization of the `forEach` accumulation of
`getFinancialSummaryByCarId` as filtered sums. -/
theorem foldl_summaryStep (txns : List Transaction) (acc : SummaryTotals) :
    txns.foldl summaryStep acc =
      { total_acquisition := acc.total_acquisition +
          sumAmounts (txns.filter (fun t => t.ttype = .acquisition)),
        total_expenses := acc.total_expenses +
          sumAmounts (txns.filter (fun t => t.ttype ∈ expenseTypes)),
        total_incomes := acc.total_incomes +
          sumAmounts (txns.filter (fun t => t.ttype ∈ incomeTypes)),
        sale_income_total := acc.sale_income_total +
          sumAmounts (txns.filter (fun t => t.ttype = .sale_income)) } := by
  induction txns generalizing acc with
  | nil => simp [sumAmounts]
  | cons t ts ih =>
    rw [List.foldl_cons, ih]
    rcases htype : t.ttype <;>
      simp [summaryStep, htype, expenseTypes, incomeTypes, sumAmounts,
        SummaryTotals.mk.injEq, List.filter_cons] <;>
      first
        | ring1
        | simp
        | (constructor <;> ring1)

/-- C7: the financial summary's buckets are the filtered sums over the
car's transactions — acquisition, the seven expense types, the two income
types — and `profit = total_incomes - total_acquisition - total_expenses`. -/
theorem financialSummary_profit_partition (db : DB) (carId : Nat)
    (s : FinancialSummary)
    (hok : getFinancialSummaryByCarId db carId = .ok s) :
    s.total_acquisition = sumAmounts ((db.transactions.filter
        (fun t => t.car_id = carId)).filter
        (fun t => t.ttype = .acquisition))
    ∧ s.total_expenses = sumAmounts ((db.transactions.filter
        (fun t => t.car_id = carId)).filter
        (fun t => t.ttype ∈ expenseTypes))
    ∧ s.total_incomes = sumAmounts ((db.transactions.filter
        (fun t => t.car_id = carId)).filter
        (fun t => t.ttype ∈ incomeTypes))
    ∧ s.profit = s.total_incomes - s.total_acquisition - s.total_expenses := by
  cases hfind : findCar db.cars carId with
  | none =>
    have hrun : getFinancialSummaryByCarId db carId =
        .error (.carNotFound carId) := by
      unfold getFinancialSummaryByCarId
      rw [hfind]
    rw [hrun] at hok
    cases hok
  | some car =>
    have hrun : getFinancialSummaryByCarId db carId = .ok
        { car_id := carId
          total_acquisition := ((db.transactions.filter
            (fun t => t.car_id = carId)).foldl summaryStep
              ⟨0, 0, 0, 0⟩).total_acquisition
          total_expenses := ((db.transactions.filter
            (fun t => t.car_id = carId)).foldl summaryStep
              ⟨0, 0, 0, 0⟩).total_expenses
          total_incomes := ((db.transactions.filter
            (fun t => t.car_id = carId)).foldl summaryStep
              ⟨0, 0, 0, 0⟩).total_incomes
          profit := ((db.transactions.filter
            (fun t => t.car_id = carId)).foldl summaryStep
              ⟨0, 0, 0, 0⟩).total_incomes -
            ((db.transactions.filter
              (fun t => t.car_id = carId)).foldl summaryStep
                ⟨0, 0, 0, 0⟩).total_acquisition -
            ((db.transactions.filter
              (fun t => t.car_id = carId)).foldl summaryStep
                ⟨0, 0, 0, 0⟩).total_expenses
          sold_price :=
            match car.sold_price with
            | some sp => some sp
            | none =>
              if ((db.transactions.filter
                  (fun t => t.car_id = carId)).foldl summaryStep
                    ⟨0, 0, 0, 0⟩).sale_income_total > 0 then
                some ((db.transactions.filter
                  (fun t => t.car_id = carId)).foldl summaryStep
                    ⟨0, 0, 0, 0⟩).sale_income_total
              else none } := by
      unfold getFinancialSummaryByCarId
      rw [hfind]
    rw [hrun] at hok
    have hs := (Except.ok.inj hok).symm
    subst hs
    refine ⟨?_, ?_, ?_, rfl⟩ <;> simp [foldl_summaryStep]

/-- Witness for C7 on the four-transaction sample store. -/
theorem financialSummary_profit_partition_witness :
    getFinancialSummaryByCarId dbW7 1 = .ok sW7 ∧
    (sW7.total_acquisition = sumAmounts ((dbW7.transactions.filter
        (fun t => t.car_id = 1)).filter
        (fun t => t.ttype = .acquisition))
      ∧ sW7.total_expenses = sumAmounts ((dbW7.transactions.filter
          (fun t => t.car_id = 1)).filter
          (fun t => t.ttype ∈ expenseTypes))
      ∧ sW7.total_incomes = sumAmounts ((dbW7.transactions.filter
          (fun t => t.car_id = 1)).filter
          (fun t => t.ttype ∈ incomeTypes))
      ∧ sW7.profit =
          sW7.total_incomes - sW7.total_acquisition - sW7.total_expenses) :=
  ⟨rfl, financialSummary_profit_partition dbW7 1 sW7 rfl⟩

/-! ## C4: deletion of a sale-income transaction -/

/-- C4 counterexample: deleting one of two sale-income transactions
(amounts 100 and 0) leaves one remaining sale-income transaction whose
sum is 0, and the handler stores null (`newSoldPrice > 0` fails) — not
the remaining sum 0 that the claim requires while transactions remain. -/
theorem deleteTransaction_zeroSum_counterexample :
    ((deleteTransaction dbC4 5 1).toOption.map (fun db' =>
      ((db'.transactions.filter
          (fun u => u.car_id = 1 ∧ u.ttype = .sale_income)).length,
       sumAmounts (db'.transactions.filter
          (fun u => u.car_id = 1 ∧ u.ttype = .sale_income)),
       (findCar db'.cars 1).map (fun c => c.sold_price)))) =
      some (1, 0, some none)
    ∧ (some (none : Option ℚ)) ≠ some (some (0 : ℚ)) := by
  constructor
  · norm_num [deleteTransaction, dbC4, findTransaction, mkTxn, mkCar,
      saleIncomeTotal, updateCarRows, findCar, sumAmounts, Except.toOption]
  · simp

/-- C4 (amended): after a successful deletion of a `sale_income`
transaction, the transaction is removed, and the owning car's
`sold_price` is set to the sum of the remaining `sale_income`
transactions for that car when that sum is positive, and to null
otherwise (in particular when none remain); `updated_at` is refreshed. -/
theorem deleteTransaction_soldPrice_recalc (db db' : DB) (now tid : Nat)
    (t : Transaction) (car : CarUnit)
    (hfindT : findTransaction db.transactions tid = some t)
    (htype : t.ttype = .sale_income)
    (hfindC : findCar db.cars t.car_id = some car)
    (hok : deleteTransaction db now tid = .ok db') :
    db'.transactions = db.transactions.filter (fun u => ¬u.id = tid)
    ∧ findCar db'.cars t.car_id = some
        { car with
          sold_price :=
            if 0 < sumAmounts (db'.transactions.filter
                (fun u => u.car_id = t.car_id ∧ u.ttype = .sale_income)) then
              some (sumAmounts (db'.transactions.filter
                (fun u => u.car_id = t.car_id ∧ u.ttype = .sale_income)))
            else none
          updated_at := now } := by
  have hrun : deleteTransaction db now tid = .ok
      { cars := updateCarRows db.cars t.car_id
          (fun c => { c with
            sold_price :=
              if saleIncomeTotal (db.transactions.filter
                  (fun u => ¬u.id = tid)) t.car_id > 0 then
                some (saleIncomeTotal (db.transactions.filter
                  (fun u => ¬u.id = tid)) t.car_id)
              else none
            updated_at := now })
        partners := db.partners
        transactions := db.transactions.filter (fun u => ¬u.id = tid) } := by
    simp only [deleteTransaction, hfindT, htype, eq_self_iff_true, ite_true]
  rw [hrun] at hok
  have hdb : db' = _ := (Except.ok.inj hok).symm
  subst hdb
  refine ⟨rfl, ?_⟩
  show findCar (updateCarRows db.cars t.car_id
    (fun c => { c with
      sold_price :=
        if saleIncomeTotal (db.transactions.filter
            (fun u => ¬u.id = tid)) t.car_id > 0 then
          some (saleIncomeTotal (db.transactions.filter
            (fun u => ¬u.id = tid)) t.car_id)
        else none
      updated_at := now })) t.car_id = _
  rw [findCar_updateCarRows_self db.cars t.car_id
    (fun c => { c with
      sold_price :=
        if saleIncomeTotal (db.transactions.filter
            (fun u => ¬u.id = tid)) t.car_id > 0 then
          some (saleIncomeTotal (db.transactions.filter
            (fun u => ¬u.id = tid)) t.car_id)
        else none
      updated_at := now }) (fun c => rfl), hfindC]
  simp [saleIncomeTotal_eq_sumAmounts]

/-- Witness for C4's amended theorem: deleting the 100 sale-income
transaction of `dbW4` leaves the 50 one, and the stored price becomes
50. -/
theorem deleteTransaction_soldPrice_recalc_witness :
    findTransaction dbW4.transactions 1 = some (mkTxn 1 1 .sale_income 100)
    ∧ findCar dbW4.cars 1 = some (mkCar 1 .sold (some 150) none)
    ∧ deleteTransaction dbW4 5 1 = .ok dbW4res
    ∧ (dbW4res.transactions =
        dbW4.transactions.filter (fun u => ¬u.id = 1)
      ∧ findCar dbW4res.cars 1 = some
          { mkCar 1 .sold (some 150) none with
            sold_price :=
              if 0 < sumAmounts (dbW4res.transactions.filter
                  (fun u => u.car_id = 1 ∧ u.ttype = .sale_income)) then
                some (sumAmounts (dbW4res.transactions.filter
                  (fun u => u.car_id = 1 ∧ u.ttype = .sale_income)))
              else none
            updated_at := 5 }) :=
  ⟨rfl, rfl, rfl,
    deleteTransaction_soldPrice_recalc dbW4 dbW4res 5 1
      (mkTxn 1 1 .sale_income 100) (mkCar 1 .sold (some 150) none)
      rfl rfl rfl rfl⟩

/-! ## C3: sold-price recomputation on update -/

/-- C3 evaluation at the failing input: retyping the only `sale_income`
transaction of a car whose stored price is 100 to `workshop` triggers the
recalculation, whose total is 0; `soldPrice?.toString()` is then
`undefined`, drizzle drops the column from the update, and the car keeps
the stale price 100 even though no `sale_income` transactions remain —
the claim (and the handler's own comment) require null. -/
theorem updateTransaction_staleSoldPrice_eval :
    (updateTransaction dbC3 9 inpC3).toOption.map (fun r =>
      ((r.1.transactions.filter
          (fun u => u.car_id = 1 ∧ u.ttype = .sale_income)).length,
       (findCar r.1.cars 1).map (fun c => c.sold_price))) =
      some (0, some (some 100)) := by
  rfl

/-! ## C9: partner soft-delete guards -/

/-- C9 counterexample: an inactive partner referenced by one transaction
fails with the already-inactive error (checked first), not with
`HasDependents` as the claim's first half requires for every referenced
partner. -/
theorem deletePartner_inactive_counterexample :
    (dbC9c.transactions.filter (fun t => t.partner_id = some 1)).length = 1
    ∧ deletePartner dbC9c 5 1 = .error (.partnerAlreadyInactive 1)
    ∧ deletePartner dbC9c 5 1 ≠ .error (.hasDependents 1 1) := by
  refine ⟨rfl, rfl, ?_⟩
  decide

/-- C9 (amended): an *active* partner referenced by at least one
transaction cannot be soft-deleted: `deletePartner` fails with
`HasDependents` and (the handler throwing before any write) the partner
remains active; an already-inactive partner always fails with the
distinct already-inactive error, which is checked before the dependents
check. -/
theorem deletePartner_errors (db : DB) (now pid : Nat) (p : Partner)
    (hfind : findPartner db.partners pid = some p) :
    (p.is_active = true →
      0 < (db.transactions.filter (fun t => t.partner_id = some pid)).length →
      deletePartner db now pid = .error (.hasDependents pid
        (db.transactions.filter (fun t => t.partner_id = some pid)).length)
      ∧ deletePartnerRun db now pid = db)
    ∧ (p.is_active = false →
      deletePartner db now pid = .error (.partnerAlreadyInactive pid)) := by
  constructor
  · intro hactive hdeps
    have herr : deletePartner db now pid = .error (.hasDependents pid
        (db.transactions.filter (fun t => t.partner_id = some pid)).length) := by
      simp only [deletePartner, hfind, hactive, not_true, ite_false]
      rw [if_pos hdeps]
    refine ⟨herr, ?_⟩
    unfold deletePartnerRun
    rw [herr]
  · intro hinactive
    simp [deletePartner, hfind, hinactive]

/-- Witness for C9's amended theorem: the active partner of `dbC9w` with
one referencing transaction. -/
theorem deletePartner_errors_witness :
    findPartner dbC9w.partners 1 = some (mkPartner 1 true)
    ∧ (((mkPartner 1 true).is_active = true →
        0 < (dbC9w.transactions.filter
          (fun t => t.partner_id = some 1)).length →
        deletePartner dbC9w 5 1 = .error (.hasDependents 1
          (dbC9w.transactions.filter
            (fun t => t.partner_id = some 1)).length)
        ∧ deletePartnerRun dbC9w 5 1 = dbC9w)
      ∧ ((mkPartner 1 true).is_active = false →
        deletePartner dbC9w 5 1 = .error (.partnerAlreadyInactive 1))) :=
  ⟨rfl, deletePartner_errors dbC9w 5 1 (mkPartner 1 true) rfl⟩

/-! ## C10: moving a transaction between cars touches only the target -/

theorem findCar_updateTransactionWrite_other (db : DB) (now : Nat)
    (input : UpdateTransactionInput) (t : Transaction) (c1 c2 : Nat)
    (hcar : input.car_id = some c2) (h0 : c2 ≠ 0) (hne : c1 ≠ c2) :
    findCar (updateTransactionWrite db now input t).1.cars c1 =
      findCar db.cars c1 := by
  unfold updateTransactionWrite recalculateSoldPrice
  simp only [hcar]
  rw [if_neg h0]
  by_cases hrec : t.ttype = .sale_income ∨
      (input.ttype.getD t.ttype) = .sale_income
  · rw [if_pos hrec]
    exact findCar_updateCarRows_ne _ c1 c2 _ (fun c => rfl) hne
  · rw [if_neg hrec]

/-- C10: when `updateTransaction` moves a `sale_income` transaction from
one car to a different existing car, the `sold_price` recalculation is
applied only to the destination car; the source car's stored row —
every field, including `sold_price` and `updated_at` — is unchanged. -/
theorem updateTransaction_source_car_frame (db db' : DB) (now : Nat)
    (input : UpdateTransactionInput) (t t' : Transaction) (c2 : Nat)
    (car2 : CarUnit)
    (hfindT : findTransaction db.transactions input.id = some t)
    (htype : t.ttype = .sale_income)
    (hcar : input.car_id = some c2)
    (h0 : c2 ≠ 0)
    (hne : c2 ≠ t.car_id)
    (hfindC2 : findCar db.cars c2 = some car2)
    (hok : updateTransaction db now input = .ok (db', t')) :
    findCar db'.cars t.car_id = findCar db.cars t.car_id := by
  have hrun : updateTransaction db now input =
      .ok (updateTransactionWrite db now input t) := by
    simp only [updateTransaction, hfindT, hcar, hfindC2, ite_self]
  rw [hrun] at hok
  have hdb : db' = (updateTransactionWrite db now input t).1 :=
    (congrArg Prod.fst (Except.ok.inj hok)).symm
  rw [hdb]
  exact findCar_updateTransactionWrite_other db now input t t.car_id c2
    hcar h0 (fun h => hne h.symm)

/-- Witness for C10: moving the sale-income transaction of car 1 to car 2
leaves car 1's row untouched. -/
theorem updateTransaction_source_car_frame_witness :
    findTransaction dbW10.transactions 1 = some (mkTxn 1 1 .sale_income 100)
    ∧ findCar dbW10.cars 2 = some (mkCar 2 .listed none none)
    ∧ updateTransaction dbW10 9 inpW10 = .ok (resW10.1, resW10.2)
    ∧ findCar resW10.1.cars 1 = findCar dbW10.cars 1 :=
  ⟨rfl, rfl, rfl,
    updateTransaction_source_car_frame dbW10 resW10.1 9 inpW10
      (mkTxn 1 1 .sale_income 100) resW10.2 2 (mkCar 2 .listed none none)
      rfl rfl rfl (by decide) (by decide) rfl rfl⟩

end Dealership
